import Mathlib

/-!
Verification of the snake game engine (`snake.py`): a shallow embedding of
the game's data model and tick loop, followed by theorems about the
specified properties.

Modelling conventions:
* Screen coordinates are unbounded integers (`Int`); the curses window is
  abstracted by its maximum row/column indices `maxY maxX : Int`
  (`get_window_max_yx` already subtracts 1 from the window dimensions).
* Randomness (`random.randint`, `random.choice`) is modelled by explicit
  oracle arguments: `random.randint a b` receives an arbitrary seed
  `r : Nat` and yields `a + r % (b - a + 1)`, which realises exactly the
  values a uniform draw can produce, and fails (Python `ValueError`)
  when the range is empty.
* The unbounded `while True` retry loop of `Food.random_outside_snake` is
  modelled on a finite list of oracle seeds; running out of seeds yields
  the distinguished outcome `spin`, so "the loop never returns for any
  seed list" is the embedding of non-termination.
* Rendering, key-code decoding, colors-initialisation and `time.sleep`
  are I/O glue; the tick function keeps their state-relevant effects only.
  Frame pacing arithmetic (Python floats) is embedded in `ℚ`.
-/

/-- `Color` enum from the source (values are cosmetic tags). -/
inductive Color where
  | BLACK | RED | GREEN | YELLOW | BLUE | MAGENTA | CYAN | WHITE
deriving DecidableEq, Repr

/-- `Direction` enum. -/
inductive Direction where
  | UP | DOWN | LEFT | RIGHT
deriving DecidableEq, Repr

/-- `Direction.horizontal()`: the set `{LEFT, RIGHT}` (as a list). -/
def Direction.horizontal : List Direction := [.LEFT, .RIGHT]

/-- `Direction.vertical()`: the set `{UP, DOWN}` (as a list). -/
def Direction.vertical : List Direction := [.UP, .DOWN]

/-- `Direction.is_opposite`: the `any([...])` of the four opposite pairs.
The Python `TypeError` branch for non-`Direction` arguments is
unrepresentable in the typed embedding. -/
def Direction.is_opposite (self other : Direction) : Bool :=
  (self == Direction.UP && other == Direction.DOWN) ||
  (self == Direction.DOWN && other == Direction.UP) ||
  (self == Direction.LEFT && other == Direction.RIGHT) ||
  (self == Direction.RIGHT && other == Direction.LEFT)

/-- `Coord`: an integer pair `(y, x)`. -/
structure Coord where
  y : Int
  x : Int
deriving DecidableEq, Repr

instance : Inhabited Coord := ⟨⟨0, 0⟩⟩

/-- `Coord.__add__`. -/
instance : Add Coord := ⟨fun a b => ⟨a.y + b.y, a.x + b.x⟩⟩

/-- `Coord.__sub__`. -/
instance : Sub Coord := ⟨fun a b => ⟨a.y - b.y, a.x - b.x⟩⟩

@[simp] theorem Coord.add_y (a b : Coord) : (a + b).y = a.y + b.y := rfl

@[simp] theorem Coord.add_x (a b : Coord) : (a + b).x = a.x + b.x := rfl

/-- `Coord.from_direction`: the unit vector of a direction, built from
`(0,0)` by the if/elif chain (UP: y-1, DOWN: y+1, LEFT: x-1, RIGHT: x+1). -/
def Coord.from_direction : Direction → Coord
  | .UP => ⟨-1, 0⟩
  | .DOWN => ⟨1, 0⟩
  | .LEFT => ⟨0, -1⟩
  | .RIGHT => ⟨0, 1⟩

/-- Module constant `TIC = 1 / 6` (float arithmetic embedded in `ℚ`). -/
def TIC : ℚ := 1 / 6

/-- Module constant `BORDER = 0`. -/
def BORDER : Int := 0

/-- `random.randint a b` modelled on an oracle seed `r`: `none` when the
range is empty (Python raises `ValueError`), otherwise some value of
`[a, b]`, every one of which is realised by some seed. -/
def randint (a b : Int) (r : Nat) : Option Int :=
  if b < a then none else some (a + (r % (b - a + 1).toNat : Nat))

/-- `Coord.random_inside_window`: one `randint` per axis over
`[border, max - border]`; fails if either draw fails. -/
def Coord.random_inside_window (maxY maxX border : Int) (r : Nat × Nat) :
    Option Coord :=
  match randint border (maxY - border) r.1, randint border (maxX - border) r.2 with
  | some y, some x => some ⟨y, x⟩
  | _, _ => none

/-- The snake is a Python `list[Coord]`, head first. -/
abbrev Snake := List Coord

/-- Outcome of the food-coordinate sampling loop: `raised` embeds the
`ValueError` escaping from `randint`, `ok c` a normal return, and `spin`
means the retry loop consumed every available oracle seed without
returning — the loop never terminates iff the outcome is `spin` for every
seed list. -/
inductive SpawnResult where
  | raised
  | spin
  | ok (c : Coord)
deriving DecidableEq, Repr

/-- `Food.random_outside_snake`: hard-codes `border = 5` and retries
`Coord.random_inside_window` until the sample is outside the snake. -/
def Food.random_outside_snake (maxY maxX : Int) (snake : Snake) :
    List (Nat × Nat) → SpawnResult
  | [] => .spin
  | r :: rs =>
    match Coord.random_inside_window maxY maxX 5 r with
    | none => .raised
    | some c =>
      if c ∈ snake then Food.random_outside_snake maxY maxX snake rs
      else .ok c

/-- `Food`: glyph, coordinate and color. -/
structure Food where
  image : Char
  coord : Coord
  color : Color
deriving DecidableEq, Repr

/-- The glyph pool `'%$#№8'` of `Food.create_random_food`. -/
def foodImages : List Char := ['%', '$', '#', '№', '8']

/-- The color pool of `Food.create_random_food`. -/
def foodColors : List Color := [.RED, .YELLOW, .GREEN, .WHITE]

/-- `random.choice` on a list, driven by an oracle seed. -/
def randChoice {α : Type} (l : List α) (d : α) (r : Nat) : α :=
  l.getD (r % l.length) d

/-- Oracle inputs consumed by one `Food.create_random_food` call. -/
structure SpawnOracle where
  samples : List (Nat × Nat)
  rImage : Nat
  rColor : Nat

/-- Outcome of `Food.create_random_food`. -/
inductive FoodSpawn where
  | raised
  | spin
  | ok (f : Food)
deriving DecidableEq, Repr

/-- `Food.create_random_food`: random glyph and color, coordinate from
`Food.random_outside_snake`. -/
def Food.create_random_food (maxY maxX : Int) (snake : Snake)
    (o : SpawnOracle) : FoodSpawn :=
  match Food.random_outside_snake maxY maxX snake o.samples with
  | .raised => .raised
  | .spin => .spin
  | .ok c =>
    .ok ⟨randChoice foodImages '%' o.rImage, c,
         randChoice foodColors .RED o.rColor⟩

/-- `snake_move`: prepend `head + unit(direction)`; unless growing, pop
the last element. The `head == snake[0]` guard (degenerate zero vector)
is mirrored even though no valid `Direction` triggers it. `snake[0]` is
`headI`; the game never calls this on an empty snake (Python would raise
`IndexError` there). -/
def snake_move (snake : Snake) (direction : Direction) (can_grow : Bool) :
    Snake :=
  let head := snake.headI + Coord.from_direction direction
  if head == snake.headI then snake
  else
    let grown := head :: snake
    if can_grow then grown else grown.dropLast

/-- `can_eat_food`: head coordinate equals food coordinate. -/
def can_eat_food (snake : Snake) (food : Food) : Bool :=
  snake.headI == food.coord

/-- `can_go_further`: `not any([...])` over the four bound checks against
`[BORDER, max - BORDER]` and membership of the prospective next head in
the snake (the Python `in` test, which includes the tail). -/
def can_go_further (maxY maxX : Int) (snake : Snake)
    (direction : Direction) : Bool :=
  let next_head_coord := snake.headI + Coord.from_direction direction
  !(decide (next_head_coord.y < BORDER) ||
    decide (next_head_coord.y > maxY - BORDER) ||
    decide (next_head_coord.x < BORDER) ||
    decide (next_head_coord.x > maxX - BORDER) ||
    decide (next_head_coord ∈ snake))

/-- `calculate_frame_timeout`: `TIC * horizontal_correction +
1 / (len(snake) * 2)` (floats embedded in `ℚ`; the game never calls this
with an empty snake, where Python would divide by zero). -/
def calculate_frame_timeout (snake : Snake) (direction : Direction) : ℚ :=
  let horizontal_correction : ℚ :=
    if Direction.horizontal.contains direction then 1 / 2 else 1
  let snake_size_correction : ℚ := 1 / ((snake.length : ℚ) * 2)
  TIC * horizontal_correction + snake_size_correction

/-- The mutable state of class `Game` (the `debug` flag only toggles a
diagnostic overlay draw and is omitted). -/
structure Game where
  snake : Snake
  food : Food
  direction : Direction
deriving DecidableEq, Repr

/-- Outcome of one `main_loop` iteration: still running, broken out to
game over, or stuck in the food spawner (`crashed` = `ValueError`
propagates, `hung` = the spawner retries forever). -/
inductive TickResult where
  | crashed
  | hung
  | over (g : Game)
  | running (g : Game)
deriving DecidableEq, Repr

/-- One iteration of `Game.main_loop`: poll the direction (rejecting
reversals), check `can_eat_food` (spawning replacement food before the
move when eating), `snake_move`, then `can_go_further` decides between
continuing and breaking to game over. Rendering and sleeping carry no
model state. -/
def tick (maxY maxX : Int) (g : Game) (input : Option Direction)
    (o : SpawnOracle) : TickResult :=
  let direction :=
    match input with
    | some nd => if nd.is_opposite g.direction then g.direction else nd
    | none => g.direction
  if can_eat_food g.snake g.food then
    match Food.create_random_food maxY maxX g.snake o with
    | .raised => .crashed
    | .spin => .hung
    | .ok f =>
      let snake := snake_move g.snake direction true
      if can_go_further maxY maxX snake direction then
        .running ⟨snake, f, direction⟩
      else
        .over ⟨snake, f, direction⟩
  else
    let snake := snake_move g.snake direction false
    if can_go_further maxY maxX snake direction then
      .running ⟨snake, g.food, direction⟩
    else
      .over ⟨snake, g.food, direction⟩

/-- `get_window_center` (`//` agrees with `Int` division on the
non-negative dimensions curses reports). -/
def get_window_center (maxY maxX : Int) : Coord :=
  ⟨maxY / 2, maxX / 2⟩

/-- `Game.from_curses_window`: one-segment snake at the window center,
random food, initial direction `DOWN`. Reuses `TickResult` to propagate a
failing initial spawn. -/
def Game.from_curses_window (maxY maxX : Int) (o : SpawnOracle) :
    TickResult :=
  let center := get_window_center maxY maxX
  match Food.create_random_food maxY maxX [center] o with
  | .raised => .crashed
  | .spin => .hung
  | .ok f => .running ⟨[center], f, .DOWN⟩

/-- Iterate `tick` over a script of (polled input, spawn oracle) pairs;
a non-running outcome stops the loop. -/
def run (maxY maxX : Int) : TickResult →
    List (Option Direction × SpawnOracle) → TickResult
  | r, [] => r
  | .running g, e :: rest => run maxY maxX (tick maxY maxX g e.1 e.2) rest
  | r, _ :: _ => r

/-! ### Basic coordinate and movement lemmas -/

theorem Coord.ext {a b : Coord} (hy : a.y = b.y) (hx : a.x = b.x) :
    a = b := by
  cases a
  cases b
  simp_all

theorem Coord.ext_iff {a b : Coord} : a = b ↔ a.y = b.y ∧ a.x = b.x :=
  ⟨fun h => by subst h; exact ⟨rfl, rfl⟩, fun ⟨h1, h2⟩ => Coord.ext h1 h2⟩

/-- No direction's unit vector is zero, so the degenerate no-op guard of
`snake_move` never fires. -/
lemma headI_add_from_direction_ne (c : Coord) (d : Direction) :
    ¬ (c + Coord.from_direction d = c) := by
  cases d <;> simp [Coord.ext_iff, Coord.from_direction]

/-- Closed form of `snake_move`. -/
lemma snake_move_eq (s : Snake) (d : Direction) (b : Bool) :
    snake_move s d b =
      if b then (s.headI + Coord.from_direction d) :: s
      else ((s.headI + Coord.from_direction d) :: s).dropLast := by
  have h := headI_add_from_direction_ne s.headI d
  simp [snake_move, h]

lemma snake_move_ne_nil (s : Snake) (hs : s ≠ []) (d : Direction)
    (b : Bool) : snake_move s d b ≠ [] := by
  rw [snake_move_eq]
  rcases s with _ | ⟨a, t⟩
  · exact absurd rfl hs
  · cases b <;> simp [List.dropLast]

lemma snake_move_headI (s : Snake) (hs : s ≠ []) (d : Direction)
    (b : Bool) :
    (snake_move s d b).headI = s.headI + Coord.from_direction d := by
  rw [snake_move_eq]
  rcases s with _ | ⟨a, t⟩
  · exact absurd rfl hs
  · cases b <;> simp [List.dropLast]

/-- C4: for every non-empty snake and direction, `snake_move` prepends
`newHead = head + unitVector(direction)`; with `grow = false` it also
removes the last segment so the length stays `n`, and with `grow = true`
it removes nothing so the length becomes `n + 1`. -/
theorem snake_move_spec (h : Coord) (t : List Coord) (d : Direction) :
    snake_move (h :: t) d true = (h + Coord.from_direction d) :: h :: t ∧
    snake_move (h :: t) d false =
      (h + Coord.from_direction d) :: (h :: t).dropLast ∧
    (snake_move (h :: t) d true).length = (h :: t).length + 1 ∧
    (snake_move (h :: t) d false).length = (h :: t).length := by
  refine ⟨?_, ?_, ?_, ?_⟩
  · rw [snake_move_eq]
    simp
  · rw [snake_move_eq]
    simp [List.dropLast]
  · rw [snake_move_eq]
    simp
  · rw [snake_move_eq]
    simp [List.dropLast]

/-- `can_go_further` succeeds iff every clause of the `any([...])` list
fails. -/
lemma can_go_further_true_iff (maxY maxX : Int) (s : Snake)
    (d : Direction) :
    can_go_further maxY maxX s d = true ↔
      (¬ (s.headI + Coord.from_direction d).y < BORDER ∧
       ¬ (s.headI + Coord.from_direction d).y > maxY - BORDER ∧
       ¬ (s.headI + Coord.from_direction d).x < BORDER ∧
       ¬ (s.headI + Coord.from_direction d).x > maxX - BORDER ∧
       ¬ (s.headI + Coord.from_direction d) ∈ s) := by
  unfold can_go_further
  simp only [Bool.not_eq_true', Bool.or_eq_false_iff, decide_eq_false_iff_not]
  tauto

/-- C3: `can_go_further` returns false iff the prospective next head
(current head plus the direction's unit vector) leaves
`[BORDER, max - BORDER]` on either axis or lies on a segment of the
snake (Python `in`, which includes the tail); in particular it is false
for a 1-segment snake at a corner of `[0, maxY] × [0, maxX]` moving
outward. -/
theorem can_go_further_false_iff (maxY maxX : Int) (c : Coord)
    (rest : List Coord) (d : Direction) :
    (can_go_further maxY maxX (c :: rest) d = false ↔
      ((c + Coord.from_direction d).y < BORDER ∨
       (c + Coord.from_direction d).y > maxY - BORDER ∨
       (c + Coord.from_direction d).x < BORDER ∨
       (c + Coord.from_direction d).x > maxX - BORDER ∨
       (c + Coord.from_direction d) ∈ c :: rest)) ∧
    can_go_further maxY maxX [⟨0, 0⟩] .UP = false ∧
    can_go_further maxY maxX [⟨0, 0⟩] .LEFT = false ∧
    can_go_further maxY maxX [⟨maxY, maxX⟩] .DOWN = false ∧
    can_go_further maxY maxX [⟨maxY, maxX⟩] .RIGHT = false := by
  have htrue := can_go_further_true_iff maxY maxX (c :: rest) d
  have hhead : (c :: rest : Snake).headI = c := rfl
  rw [hhead] at htrue
  refine ⟨⟨?_, ?_⟩, ?_, ?_, ?_, ?_⟩
  · intro h
    by_contra hcon
    push_neg at hcon
    obtain ⟨h1, h2, h3, h4, h5⟩ := hcon
    have : can_go_further maxY maxX (c :: rest) d = true :=
      htrue.mpr ⟨not_lt.mpr h1, not_lt.mpr h2, not_lt.mpr h3,
                 not_lt.mpr h4, h5⟩
    rw [h] at this
    exact Bool.false_ne_true this
  · intro hdisj
    cases hb : can_go_further maxY maxX (c :: rest) d
    · rfl
    · exfalso
      obtain ⟨h1, h2, h3, h4, h5⟩ := htrue.mp hb
      rcases hdisj with h | h | h | h | h
      · exact h1 h
      · exact h2 h
      · exact h3 h
      · exact h4 h
      · exact h5 h
  · have := can_go_further_true_iff maxY maxX [⟨0, 0⟩] .UP
    cases hb : can_go_further maxY maxX [⟨0, 0⟩] .UP
    · rfl
    · obtain ⟨h1, _⟩ := this.mp hb
      exact absurd (by simp [Coord.from_direction, BORDER]) h1
  · have := can_go_further_true_iff maxY maxX [⟨0, 0⟩] .LEFT
    cases hb : can_go_further maxY maxX [⟨0, 0⟩] .LEFT
    · rfl
    · obtain ⟨_, _, h3, _⟩ := this.mp hb
      exact absurd (by simp [Coord.from_direction, BORDER]) h3
  · have := can_go_further_true_iff maxY maxX [⟨maxY, maxX⟩] .DOWN
    cases hb : can_go_further maxY maxX [⟨maxY, maxX⟩] .DOWN
    · rfl
    · obtain ⟨_, h2, _⟩ := this.mp hb
      refine absurd ?_ h2
      simp [Coord.from_direction, BORDER]
  · have := can_go_further_true_iff maxY maxX [⟨maxY, maxX⟩] .RIGHT
    cases hb : can_go_further maxY maxX [⟨maxY, maxX⟩] .RIGHT
    · rfl
    · obtain ⟨_, _, _, h4, _⟩ := this.mp hb
      refine absurd ?_ h4
      simp [Coord.from_direction, BORDER]

/-! ### Frame pacing -/

/-- Closed form of `calculate_frame_timeout`. -/
lemma frame_timeout_def (s : Snake) (d : Direction) :
    calculate_frame_timeout s d =
      TIC * (if Direction.horizontal.contains d then 1 / 2 else 1) +
        1 / ((s.length : ℚ) * 2) := rfl

/-- C6 (counterexample): a longer snake CAN yield a strictly shorter
inter-frame delay — the additive term `1 / (2 * len)` shrinks with
length, so the game speeds up, not slows down. -/
theorem frame_timeout_decreases_with_growth :
    calculate_frame_timeout [⟨0, 0⟩, ⟨0, 1⟩] Direction.DOWN <
      calculate_frame_timeout [⟨0, 0⟩] Direction.DOWN := by
  rw [frame_timeout_def, frame_timeout_def]
  norm_num [TIC, Direction.horizontal]

/-- C6 (amended): holding the direction fixed, the delay computed by
`calculate_frame_timeout` is antitone in the snake's length — the game
speeds up (never slows down) as the snake grows — and the delay stays
strictly above the base rate `TIC * horizontal_correction`, toward which
it converges from above. -/
theorem frame_timeout_antitone (d : Direction) (s1 s2 : Snake)
    (h1 : 1 ≤ s1.length) (h2 : s1.length ≤ s2.length) :
    calculate_frame_timeout s2 d ≤ calculate_frame_timeout s1 d ∧
    TIC * (if Direction.horizontal.contains d then 1 / 2 else 1) <
      calculate_frame_timeout s2 d := by
  have ha : (0 : ℚ) < (s1.length : ℚ) * 2 := by
    have : (1 : ℚ) ≤ (s1.length : ℚ) := by exact_mod_cast h1
    linarith
  have hb : (s1.length : ℚ) * 2 ≤ (s2.length : ℚ) * 2 := by
    have : (s1.length : ℚ) ≤ (s2.length : ℚ) := by exact_mod_cast h2
    linarith
  constructor
  · rw [frame_timeout_def, frame_timeout_def]
    have := one_div_le_one_div_of_le ha hb
    linarith
  · rw [frame_timeout_def]
    have : (0 : ℚ) < 1 / ((s2.length : ℚ) * 2) := by
      apply one_div_pos.mpr
      linarith
    linarith

/-- C6 (witness): the amended antitonicity applied to snakes of length 1
and 2 moving DOWN. -/
theorem frame_timeout_antitone_witness :
    1 ≤ ([⟨0, 0⟩] : Snake).length ∧
    ([⟨0, 0⟩] : Snake).length ≤ ([⟨0, 0⟩, ⟨0, 1⟩] : Snake).length ∧
    calculate_frame_timeout [⟨0, 0⟩, ⟨0, 1⟩] Direction.DOWN ≤
      calculate_frame_timeout [⟨0, 0⟩] Direction.DOWN :=
  ⟨by decide, by decide,
   (frame_timeout_antitone Direction.DOWN [⟨0, 0⟩] [⟨0, 0⟩, ⟨0, 1⟩]
     (by decide) (by decide)).1⟩

/-- C7: holding the direction fixed, `calculate_frame_timeout` is
strictly decreasing in the snake's length, and for every snake of
positive length it stays strictly above the base tick
`TIC * horizontal_correction`. -/
theorem frame_timeout_strict_anti (d : Direction) (s1 s2 : Snake)
    (h1 : 1 ≤ s1.length) (h2 : s1.length < s2.length) :
    calculate_frame_timeout s2 d < calculate_frame_timeout s1 d ∧
    ∀ s : Snake, 1 ≤ s.length →
      TIC * (if Direction.horizontal.contains d then 1 / 2 else 1) <
        calculate_frame_timeout s d := by
  constructor
  · have ha : (0 : ℚ) < (s1.length : ℚ) * 2 := by
      have : (1 : ℚ) ≤ (s1.length : ℚ) := by exact_mod_cast h1
      linarith
    have hb : (s1.length : ℚ) * 2 < (s2.length : ℚ) * 2 := by
      have : (s1.length : ℚ) < (s2.length : ℚ) := by exact_mod_cast h2
      linarith
    rw [frame_timeout_def, frame_timeout_def]
    have := one_div_lt_one_div_of_lt ha hb
    linarith
  · intro s hs
    rw [frame_timeout_def]
    have : (0 : ℚ) < 1 / ((s.length : ℚ) * 2) := by
      apply one_div_pos.mpr
      have : (1 : ℚ) ≤ (s.length : ℚ) := by exact_mod_cast hs
      linarith
    linarith

/-- C7 (witness): strict decrease from length 1 to length 2 moving DOWN,
and the base-tick lower bound at length 2. -/
theorem frame_timeout_strict_anti_witness :
    1 ≤ ([⟨0, 0⟩] : Snake).length ∧
    ([⟨0, 0⟩] : Snake).length < ([⟨0, 0⟩, ⟨0, 1⟩] : Snake).length ∧
    calculate_frame_timeout [⟨0, 0⟩, ⟨0, 1⟩] Direction.DOWN <
      calculate_frame_timeout [⟨0, 0⟩] Direction.DOWN :=
  ⟨by decide, by decide,
   (frame_timeout_strict_anti Direction.DOWN [⟨0, 0⟩] [⟨0, 0⟩, ⟨0, 1⟩]
     (by decide) (by decide)).1⟩

/-! ### Food spawning -/

/-- `randint` only returns values inside the requested range. -/
lemma randint_mem (a b : Int) (r : Nat) (v : Int)
    (h : randint a b r = some v) : a ≤ v ∧ v ≤ b := by
  unfold randint at h
  split at h
  · exact absurd h (by simp)
  · next hba =>
    rw [Option.some.injEq] at h
    subst h
    have hpos : 0 < (b - a + 1).toNat := by omega
    have hmod : r % (b - a + 1).toNat < (b - a + 1).toNat :=
      Nat.mod_lt _ hpos
    omega

/-- A successful `Coord.random_inside_window` sample lies in the border
band on both axes. -/
lemma random_inside_window_mem (maxY maxX border : Int) (r : Nat × Nat)
    (c : Coord) (h : Coord.random_inside_window maxY maxX border r = some c) :
    border ≤ c.y ∧ c.y ≤ maxY - border ∧ border ≤ c.x ∧ c.x ≤ maxX - border := by
  unfold Coord.random_inside_window at h
  cases hy : randint border (maxY - border) r.1 with
  | none => rw [hy] at h; exact absurd h (by simp)
  | some y =>
    cases hx : randint border (maxX - border) r.2 with
    | none => rw [hy, hx] at h; exact absurd h (by simp)
    | some x =>
      rw [hy, hx, Option.some.injEq] at h
      subst h
      obtain ⟨hy1, hy2⟩ := randint_mem _ _ _ _ hy
      obtain ⟨hx1, hx2⟩ := randint_mem _ _ _ _ hx
      exact ⟨hy1, hy2, hx1, hx2⟩

/-- When both maxima are at least 10, the hard-coded border-5 sampling
range is non-empty on both axes and `Coord.random_inside_window`
always succeeds. -/
lemma random_inside_window_some (maxY maxX : Int) (hY : 10 ≤ maxY)
    (hX : 10 ≤ maxX) (r : Nat × Nat) :
    ∃ c, Coord.random_inside_window maxY maxX 5 r = some c := by
  have h1 : ¬ (maxY - 5 < 5) := by omega
  have h2 : ¬ (maxX - 5 < 5) := by omega
  simp only [Coord.random_inside_window, randint, if_neg h1, if_neg h2]
  exact ⟨_, rfl⟩

/-- When some maximum is below 10, the border-5 sampling range is empty
on that axis and `Coord.random_inside_window` fails. -/
lemma random_inside_window_none (maxY maxX : Int)
    (h : maxY < 10 ∨ maxX < 10) (r : Nat × Nat) :
    Coord.random_inside_window maxY maxX 5 r = none := by
  unfold Coord.random_inside_window
  rcases h with h | h
  · have h1 : randint 5 (maxY - 5) r.1 = none := by
      simp only [randint, if_pos (show maxY - 5 < 5 by omega)]
    rw [h1]
  · have h2 : randint 5 (maxX - 5) r.2 = none := by
      simp only [randint, if_pos (show maxX - 5 < 5 by omega)]
    rw [h2]
    cases randint 5 (maxY - 5) r.1 <;> rfl

/-- If every cell of the border-5 band is occupied by the snake, the
retry loop never returns, whatever the seeds. -/
lemma spawn_spin_of_covered (maxY maxX : Int) (snake : Snake)
    (hY : 10 ≤ maxY) (hX : 10 ≤ maxX)
    (hcov : ∀ c : Coord, 5 ≤ c.y → c.y ≤ maxY - 5 → 5 ≤ c.x →
      c.x ≤ maxX - 5 → c ∈ snake) :
    ∀ rs : List (Nat × Nat),
      Food.random_outside_snake maxY maxX snake rs = .spin := by
  intro rs
  induction rs with
  | nil => rfl
  | cons r rest ih =>
    obtain ⟨c, hc⟩ := random_inside_window_some maxY maxX hY hX r
    obtain ⟨h1, h2, h3, h4⟩ := random_inside_window_mem _ _ _ _ _ hc
    have hmem : c ∈ snake := hcov c h1 h2 h3 h4
    rw [Food.random_outside_snake, hc]
    simp only [if_pos hmem]
    exact ih

/-- `spawnAlwaysSpins maxY maxX snake` says the retry loop of
`Food.random_outside_snake` returns `spin` for every finite seed list —
i.e. the Python `while True` loop never terminates. -/
def spawnAlwaysSpins (maxY maxX : Int) (snake : Snake) : Prop :=
  ∀ rs : List (Nat × Nat), Food.random_outside_snake maxY maxX snake rs = .spin

/-- C5 (counterexample): on a window with `maxY = maxX = 10` the
sampling band is the single cell `(5,5)`; with the snake occupying it,
the spawner never returns for any seed sequence — it loops forever
instead of surfacing a recoverable condition. -/
theorem spawn_spins_on_full_band : spawnAlwaysSpins 10 10 [⟨5, 5⟩] := by
  apply spawn_spin_of_covered 10 10 [⟨5, 5⟩] (by norm_num) (by norm_num)
  intro c h1 h2 h3 h4
  have hy : c.y = 5 := by omega
  have hx : c.x = 5 := by omega
  have : c = ⟨5, 5⟩ := Coord.ext hy hx
  rw [this]
  exact List.mem_singleton.mpr rfl

/-- C5 (amended): the food spawn operation does NOT always terminate:
whenever the snake occupies every cell of the border-5 sampling band (on
a window where sampling itself succeeds, i.e. both maxima at least 10),
`Food.random_outside_snake` returns for no seed sequence — the
`while True` loop retries forever and no recoverable condition (and no
error) is ever surfaced. -/
theorem spawn_never_returns_when_covered (maxY maxX : Int) (snake : Snake)
    (hY : 10 ≤ maxY) (hX : 10 ≤ maxX)
    (hcov : ∀ c : Coord, 5 ≤ c.y → c.y ≤ maxY - 5 → 5 ≤ c.x →
      c.x ≤ maxX - 5 → c ∈ snake)
    (rs : List (Nat × Nat)) :
    Food.random_outside_snake maxY maxX snake rs = .spin :=
  spawn_spin_of_covered maxY maxX snake hY hX hcov rs

/-- C5 (witness): the non-termination theorem applied to the concrete
exhausted arena `maxY = maxX = 10`, snake `[(5,5)]`, seeds `[(0,0),(1,2)]`. -/
theorem spawn_never_returns_when_covered_witness :
    10 ≤ (10 : Int) ∧
    Food.random_outside_snake 10 10 [⟨5, 5⟩] [(0, 0), (1, 2)] = .spin :=
  ⟨by norm_num,
   spawn_never_returns_when_covered 10 10 [⟨5, 5⟩] (by norm_num) (by norm_num)
     (by
       intro c h1 h2 h3 h4
       have hy : c.y = 5 := by omega
       have hx : c.x = 5 := by omega
       have hc : c = ⟨5, 5⟩ := Coord.ext hy hx
       rw [hc]
       exact List.mem_singleton.mpr rfl)
     [(0, 0), (1, 2)]⟩

/-- C8: every coordinate returned by the food spawner
(`Food.random_outside_snake`, whatever the seeds) is outside the current
snake body, and both its row and column lie in the inner margin band
`[5, max - 5]` of the arena. -/
theorem spawn_postcondition (maxY maxX : Int) (snake : Snake)
    (rs : List (Nat × Nat)) (c : Coord)
    (h : Food.random_outside_snake maxY maxX snake rs = .ok c) :
    c ∉ snake ∧ 5 ≤ c.y ∧ c.y ≤ maxY - 5 ∧ 5 ≤ c.x ∧ c.x ≤ maxX - 5 := by
  induction rs with
  | nil => exact absurd h (by simp [Food.random_outside_snake])
  | cons r rest ih =>
    rw [Food.random_outside_snake] at h
    cases hw : Coord.random_inside_window maxY maxX 5 r with
    | none => rw [hw] at h; exact absurd h (by simp)
    | some c0 =>
      simp only [hw] at h
      by_cases hmem : c0 ∈ snake
      · rw [if_pos hmem] at h
        exact ih h
      · rw [if_neg hmem] at h
        have hc : c0 = c := by
          have := h
          simp only [SpawnResult.ok.injEq] at this
          exact this
        subst hc
        obtain ⟨h1, h2, h3, h4⟩ := random_inside_window_mem _ _ _ _ _ hw
        exact ⟨hmem, h1, h2, h3, h4⟩

/-- C8 (witness): on an empty snake in a 20×20-index arena with seed
`(0,0)`, the spawner returns `(5,5)`, which satisfies the postcondition. -/
theorem spawn_postcondition_witness :
    Food.random_outside_snake 20 20 [] [(0, 0)] = .ok ⟨5, 5⟩ ∧
    ((⟨5, 5⟩ : Coord) ∉ ([] : Snake) ∧ 5 ≤ (5 : Int) ∧ (5 : Int) ≤ 20 - 5 ∧
      5 ≤ (5 : Int) ∧ (5 : Int) ≤ 20 - 5) :=
  ⟨by decide, spawn_postcondition 20 20 [] [(0, 0)] ⟨5, 5⟩ (by decide)⟩

/-- `spawnNeverOk maxY maxX snake` says `Food.random_outside_snake`
returns a coordinate for no seed sequence. -/
def spawnNeverOk (maxY maxX : Int) (snake : Snake) : Prop :=
  ∀ (rs : List (Nat × Nat)) (c : Coord),
    Food.random_outside_snake maxY maxX snake rs ≠ .ok c

/-- C10 (counterexample): a window with `maxY = 11, maxX = 10` has both
maxima at least 10, yet with the snake occupying the whole band
`{(5,5), (6,5)}` no coordinate is ever returned — "both maxima ≥ 10"
does not guarantee that a coordinate is returned. -/
theorem spawn_no_coord_on_covered_band :
    10 ≤ (11 : Int) ∧ 10 ≤ (10 : Int) ∧ spawnNeverOk 11 10 [⟨5, 5⟩, ⟨6, 5⟩] := by
  refine ⟨by norm_num, by norm_num, ?_⟩
  intro rs c hok
  have hspin : Food.random_outside_snake 11 10 [⟨5, 5⟩, ⟨6, 5⟩] rs = .spin := by
    apply spawn_spin_of_covered 11 10 [⟨5, 5⟩, ⟨6, 5⟩] (by norm_num) (by norm_num)
    intro c0 h1 h2 h3 h4
    have hx : c0.x = 5 := by omega
    have hy : c0.y = 5 ∨ c0.y = 6 := by omega
    rcases hy with hy | hy
    · have hc : c0 = ⟨5, 5⟩ := Coord.ext hy hx
      rw [hc]
      simp
    · have hc : c0 = ⟨6, 5⟩ := Coord.ext hy hx
      rw [hc]
      simp
  rw [hspin] at hok
  exact SpawnResult.noConfusion hok

/-- C10 (amended): `Food.random_outside_snake` hard-codes border 5 and
samples `randint(5, max - 5)` per axis, so for every window with maximum
row or column index below 10 any call (which always samples at least
once) raises; when both maxima are at least 10 the error branch is
unreachable — no call ever raises — though a coordinate need not be
returned (the loop can retry forever if the snake covers the band). -/
theorem spawn_raises_iff_small_window (maxY maxX : Int) :
    (∀ (snake : Snake) (r : Nat × Nat) (rs : List (Nat × Nat)),
      (maxY < 10 ∨ maxX < 10) →
        Food.random_outside_snake maxY maxX snake (r :: rs) = .raised) ∧
    (∀ (snake : Snake) (rs : List (Nat × Nat)),
      10 ≤ maxY → 10 ≤ maxX →
        Food.random_outside_snake maxY maxX snake rs ≠ .raised) := by
  constructor
  · intro snake r rs hsmall
    rw [Food.random_outside_snake, random_inside_window_none maxY maxX hsmall r]
  · intro snake rs hY hX
    induction rs with
    | nil => simp [Food.random_outside_snake]
    | cons r rest ih =>
      obtain ⟨c, hc⟩ := random_inside_window_some maxY maxX hY hX r
      rw [Food.random_outside_snake]
      simp only [hc]
      by_cases hmem : c ∈ snake
      · rw [if_pos hmem]
        exact ih
      · rw [if_neg hmem]
        simp

/-- C10 (witness): the raise branch at the too-small window
`maxY = maxX = 5`, and the no-raise guarantee at `maxY = 11, maxX = 10`. -/
theorem spawn_raises_iff_small_window_witness :
    Food.random_outside_snake 5 5 [] [(0, 0)] = .raised ∧
    Food.random_outside_snake 11 10 [] [(0, 0)] ≠ .raised :=
  ⟨(spawn_raises_iff_small_window 5 5).1 [] (0, 0) [] (Or.inl (by norm_num)),
   (spawn_raises_iff_small_window 11 10).2 [] [(0, 0)] (by norm_num) (by norm_num)⟩

/-! ### Game loop invariants -/

/-- The committed state's snake is non-empty and its head lies inside the
arena rectangle `[0, maxY] × [0, maxX]`. -/
def headInBounds (maxY maxX : Int) (g : Game) : Prop :=
  g.snake ≠ [] ∧ 0 ≤ g.snake.headI.y ∧ g.snake.headI.y ≤ maxY ∧
    0 ≤ g.snake.headI.x ∧ g.snake.headI.x ≤ maxX

/-- If the move's own `can_go_further` check passes, the just-committed
head is inside the arena: the checked cell is one further step along the
same axis, and the head sits between the old head and the checked cell. -/
lemma move_check_bounds (maxY maxX : Int) (s : Snake) (d : Direction)
    (b : Bool) (hne : s ≠ [])
    (hy0 : 0 ≤ s.headI.y) (hy1 : s.headI.y ≤ maxY)
    (hx0 : 0 ≤ s.headI.x) (hx1 : s.headI.x ≤ maxX)
    (hcg : can_go_further maxY maxX (snake_move s d b) d = true) :
    snake_move s d b ≠ [] ∧
    0 ≤ (snake_move s d b).headI.y ∧ (snake_move s d b).headI.y ≤ maxY ∧
    0 ≤ (snake_move s d b).headI.x ∧ (snake_move s d b).headI.x ≤ maxX := by
  have hh := snake_move_headI s hne d b
  have hn := snake_move_ne_nil s hne d b
  obtain ⟨c1, c2, c3, c4, _⟩ :=
    (can_go_further_true_iff maxY maxX (snake_move s d b) d).mp hcg
  rw [hh] at c1 c2 c3 c4
  refine ⟨hn, ?_, ?_, ?_, ?_⟩ <;> rw [hh] <;>
    cases d <;> simp [Coord.from_direction, BORDER] at c1 c2 c3 c4 ⊢ <;> omega

/-- One running-to-running tick preserves `headInBounds`. -/
lemma tick_running_head_bounds (maxY maxX : Int) (g g2 : Game)
    (i : Option Direction) (o : SpawnOracle)
    (hb : headInBounds maxY maxX g)
    (h : tick maxY maxX g i o = .running g2) :
    headInBounds maxY maxX g2 := by
  obtain ⟨hne, hy0, hy1, hx0, hx1⟩ := hb
  simp only [tick] at h
  split at h
  · -- eating branch: food is respawned, snake moves with grow = true
    split at h
    · exact absurd h (by simp)
    · exact absurd h (by simp)
    · split at h
      · next hcg =>
        injection h with h2
        subst h2
        exact move_check_bounds maxY maxX g.snake _ true hne hy0 hy1 hx0 hx1 hcg
      · exact absurd h (by simp)
  · -- non-eating branch: snake moves with grow = false
    split at h
    · next hcg =>
      injection h with h2
      subst h2
      exact move_check_bounds maxY maxX g.snake _ false hne hy0 hy1 hx0 hx1 hcg
    · exact absurd h (by simp)

lemma run_crashed (maxY maxX : Int) (l : List (Option Direction × SpawnOracle)) :
    run maxY maxX .crashed l = .crashed := by cases l <;> rfl

lemma run_hung (maxY maxX : Int) (l : List (Option Direction × SpawnOracle)) :
    run maxY maxX .hung l = .hung := by cases l <;> rfl

lemma run_over (maxY maxX : Int) (g : Game)
    (l : List (Option Direction × SpawnOracle)) :
    run maxY maxX (.over g) l = .over g := by cases l <;> rfl

/-- `headInBounds` is preserved along every still-running execution of
the tick loop. -/
lemma run_running_head_bounds (maxY maxX : Int)
    (script : List (Option Direction × SpawnOracle)) :
    ∀ g g2 : Game, headInBounds maxY maxX g →
      run maxY maxX (.running g) script = .running g2 →
      headInBounds maxY maxX g2 := by
  induction script with
  | nil =>
    intro g g2 hb h
    have h2 : TickResult.running g = .running g2 := h
    injection h2 with h3
    rw [← h3]
    exact hb
  | cons e rest ih =>
    intro g g2 hb h
    have h2 : run maxY maxX (tick maxY maxX g e.1 e.2) rest = .running g2 := h
    cases ht : tick maxY maxX g e.1 e.2 with
    | crashed =>
      rw [ht, run_crashed] at h2
      exact TickResult.noConfusion h2
    | hung =>
      rw [ht, run_hung] at h2
      exact TickResult.noConfusion h2
    | over g1 =>
      rw [ht, run_over] at h2
      exact TickResult.noConfusion h2
    | running g1 =>
      rw [ht] at h2
      exact ih g1 g2 (tick_running_head_bounds maxY maxX g g1 e.1 e.2 hb ht) h2

/-- C1 (amended): every state reachable by tick steps of the game loop
from game construction that is still Running has a non-empty snake whose
head lies within the arena bounds — an out-of-bounds head is never
rendered or persisted as the committed state. (Pairwise distinctness of
the segments, the other half of the original claim, does not hold; see
the counterexample.) -/
theorem running_head_in_bounds (maxY maxX : Int) (o : SpawnOracle)
    (script : List (Option Direction × SpawnOracle)) (g2 : Game)
    (hY : 0 ≤ maxY) (hX : 0 ≤ maxX)
    (h : run maxY maxX (Game.from_curses_window maxY maxX o) script =
      .running g2) :
    headInBounds maxY maxX g2 := by
  unfold Game.from_curses_window at h
  cases hcf : Food.create_random_food maxY maxX [get_window_center maxY maxX] o with
  | raised =>
    simp only [hcf] at h
    rw [run_crashed] at h
    exact TickResult.noConfusion h
  | spin =>
    simp only [hcf] at h
    rw [run_hung] at h
    exact TickResult.noConfusion h
  | ok f =>
    simp only [hcf] at h
    refine run_running_head_bounds maxY maxX script _ g2 ?_ h
    refine ⟨by simp, ?_, ?_, ?_, ?_⟩ <;>
      simp [get_window_center] <;> omega

def emptyOracle : SpawnOracle := ⟨[], 0, 0⟩

/-- Input/oracle script steering the game, from construction at the
center of a 21×21 window, through four food pick-ups along column 10 and
a hook-shaped path, into a tick whose direction change moves the head
onto its own body while the forward-looking collision check still
passes. -/
def c1Script : List (Option Direction × SpawnOracle) :=
  [ (none, emptyOracle),
    (none, ⟨[(7, 5)], 0, 0⟩),
    (none, ⟨[(8, 5)], 0, 0⟩),
    (none, ⟨[(9, 5)], 0, 0⟩),
    (none, ⟨[(10, 10)], 0, 0⟩),
    (some .LEFT, emptyOracle),
    (some .UP, emptyOracle),
    (none, emptyOracle), (none, emptyOracle), (none, emptyOracle),
    (none, emptyOracle), (none, emptyOracle),
    (some .LEFT, emptyOracle),
    (none, emptyOracle),
    (some .UP, emptyOracle),
    (some .RIGHT, emptyOracle),
    (some .DOWN, emptyOracle) ]

/-- C1 (counterexample): a reachable, still-Running committed state whose
snake contains the coordinate `(9,8)` twice — the self-colliding head is
rendered and persisted, because `can_go_further` only inspects the NEXT
prospective cell and the direction changed between ticks. -/
theorem running_state_with_overlap :
    run 20 20 (Game.from_curses_window 20 20 ⟨[(6, 5)], 0, 0⟩) c1Script =
      .running ⟨[⟨9, 8⟩, ⟨8, 8⟩, ⟨8, 7⟩, ⟨9, 7⟩, ⟨9, 8⟩],
                ⟨'%', ⟨15, 15⟩, .RED⟩, .DOWN⟩ ∧
    ¬ ([⟨9, 8⟩, ⟨8, 8⟩, ⟨8, 7⟩, ⟨9, 7⟩, ⟨9, 8⟩] : Snake).Nodup :=
  ⟨by decide, by decide⟩

/-- C1 (witness): the bounds invariant applied to the freshly
constructed game on a 21×21 window. -/
theorem running_head_in_bounds_witness :
    (0 : Int) ≤ 20 ∧
    run 20 20 (Game.from_curses_window 20 20 ⟨[(6, 5)], 0, 0⟩) [] =
      .running ⟨[⟨10, 10⟩], ⟨'%', ⟨11, 10⟩, .RED⟩, .DOWN⟩ ∧
    headInBounds 20 20 ⟨[⟨10, 10⟩], ⟨'%', ⟨11, 10⟩, .RED⟩, .DOWN⟩ :=
  ⟨by norm_num, by decide,
   running_head_in_bounds 20 20 ⟨[(6, 5)], 0, 0⟩ []
     ⟨[⟨10, 10⟩], ⟨'%', ⟨11, 10⟩, .RED⟩, .DOWN⟩
     (by norm_num) (by norm_num) (by decide)⟩

/-- C2 (counterexample): a length-1 snake at `(5,5)` committed RIGHT in
an arena with maximum indices `(9,9)` and food at `(5,6)` does NOT grow
within one tick and the food is NOT relocated: the eat-check compares
the head with the food BEFORE the move, so the tick merely moves the
head onto the food cell. -/
theorem one_tick_not_grown :
    tick 9 9 ⟨[⟨5, 5⟩], ⟨'%', ⟨5, 6⟩, .RED⟩, .RIGHT⟩ none emptyOracle =
      .running ⟨[⟨5, 6⟩], ⟨'%', ⟨5, 6⟩, .RED⟩, .RIGHT⟩ ∧
    ([⟨5, 6⟩] : Snake) ≠ [⟨5, 6⟩, ⟨5, 5⟩] :=
  ⟨by decide, by decide⟩

/-- C2 (amended): for a snake of length 1 with head `(5,5)`, committed
direction RIGHT, food at `(5,6)`, one tick of the game loop produces the
still-Running state with snake `[(5,6)]` (length unchanged, head resting
on the food) and the food still at `(5,6)`; the growth to
`[(5,6),(5,5)]`-shape and the food relocation happen only on the
following tick, when the eat-check sees the head already on the food. -/
theorem one_tick_moves_onto_food :
    tick 9 9 ⟨[⟨5, 5⟩], ⟨'%', ⟨5, 6⟩, .RED⟩, .RIGHT⟩ none emptyOracle =
      .running ⟨[⟨5, 6⟩], ⟨'%', ⟨5, 6⟩, .RED⟩, .RIGHT⟩ := by decide

/-- C9: with snake `[(3,3),(3,2),(3,1)]` committed RIGHT, a polled LEFT
input is rejected by `is_opposite`, the committed direction stays RIGHT,
and the tick's move is computed from RIGHT: the snake becomes
`[(3,4),(3,3),(3,2)]`. -/
theorem opposite_input_rejected :
    Direction.is_opposite .LEFT .RIGHT = true ∧
    tick 20 20 ⟨[⟨3, 3⟩, ⟨3, 2⟩, ⟨3, 1⟩], ⟨'%', ⟨7, 7⟩, .RED⟩, .RIGHT⟩
        (some .LEFT) emptyOracle =
      .running ⟨[⟨3, 4⟩, ⟨3, 3⟩, ⟨3, 2⟩], ⟨'%', ⟨7, 7⟩, .RED⟩, .RIGHT⟩ :=
  ⟨by decide, by decide⟩
